import Mathlib

/-!
Verification development for the invoice chatbot pipeline
(`src/invoice_chatbot.py`).

The Python source is shallowly embedded: pure string manipulation becomes
functions on `List Char`, `json.loads` becomes a fuel-based JSON parser,
the pandas dataframe build becomes an `Except`-valued column-coercion
function, and the `exec`-based query executor becomes a small operational
semantics over an explicit scope, a table and a file-system/network world.
-/

namespace InvoiceChatbot

/-- The backquote character (written via its code point). -/
def btick : Char := Char.ofNat 96

/-- The opening curly brace character. -/
def lbrace : Char := Char.ofNat 123

/-- The closing curly brace character. -/
def rbrace : Char := Char.ofNat 125

/-- ASCII whitespace recognised by Python's `str.strip` (modelled fragment:
space, tab, newline, carriage return). -/
def isSpaceChar (c : Char) : Bool :=
  c = ' ' || c = '\t' || c = '\n' || c = '\r'

/-- Python `str.strip()`: drop leading and trailing whitespace. -/
def pyStrip (s : List Char) : List Char :=
  ((s.dropWhile isSpaceChar).reverse.dropWhile isSpaceChar).reverse

/-- Python `text.replace(three-backquotes, empty)`: delete every occurrence of
three consecutive backquotes, scanning left to right, non-overlapping. -/
def stripTicks : List Char → List Char
  | c1 :: c2 :: c3 :: rest =>
    if c1 = btick ∧ c2 = btick ∧ c3 = btick then stripTicks rest
    else c1 :: stripTicks (c2 :: c3 :: rest)
  | s => s

/-- The seven characters of the json code fence opener. -/
def fenceJsonChars : List Char := [btick, btick, btick, 'j', 's', 'o', 'n']

/-- Python `text.replace(backquoted-json-fence, empty)`: delete every
occurrence of the seven-character json fence opener, scanning left to
right, non-overlapping. -/
def stripJsonFence : List Char → List Char
  | c1 :: c2 :: c3 :: c4 :: c5 :: c6 :: c7 :: rest =>
    if [c1, c2, c3, c4, c5, c6, c7] = fenceJsonChars then stripJsonFence rest
    else c1 :: stripJsonFence (c2 :: c3 :: c4 :: c5 :: c6 :: c7 :: rest)
  | s => s

/-- `response.text.strip().replace(json-fence, empty).replace(fence, empty)`
from `parse_invoices_from_images` (src line 44). -/
def fenceStripped (s : String) : String :=
  String.mk (stripTicks (stripJsonFence (pyStrip s.toList)))

/-- `pat` is a prefix of the second list. -/
def startsWith : List Char → List Char → Bool
  | [], _ => true
  | _ :: _, [] => false
  | p :: ps, c :: cs => if p = c then startsWith ps cs else false

/-- `pat` occurs as a contiguous substring. -/
def hasOccur (pat : List Char) : List Char → Bool
  | [] => startsWith pat []
  | c :: rest => startsWith pat (c :: rest) || hasOccur pat rest

theorem stripTicks_nil : stripTicks [] = [] := rfl

theorem stripTicks_one (c : Char) : stripTicks [c] = [c] := rfl

theorem stripTicks_two (c d : Char) : stripTicks [c, d] = [c, d] := rfl

theorem stripTicks_cons3 (c1 c2 c3 : Char) (r : List Char) :
    stripTicks (c1 :: c2 :: c3 :: r) =
      if c1 = btick ∧ c2 = btick ∧ c3 = btick then stripTicks r
      else c1 :: stripTicks (c2 :: c3 :: r) := rfl

theorem startsWith_cons (p c : Char) (ps cs : List Char) :
    startsWith (p :: ps) (c :: cs) = if p = c then startsWith ps cs else false := rfl

theorem startsWith_pair (x y : Char) (s : List Char) (h : startsWith [x, y] s = true) :
    ∃ r, s = x :: y :: r := by
  match s with
  | [] => simp [startsWith] at h
  | [c] =>
    rw [startsWith_cons] at h
    split at h
    · simp [startsWith] at h
    · simp at h
  | c :: d :: r =>
    rw [startsWith_cons] at h
    split at h
    · rw [startsWith_cons] at h
      split at h
      · subst_vars; exact ⟨r, rfl⟩
      · simp at h
    · simp at h

theorem startsWith_append_left (p q s : List Char) (h : startsWith (p ++ q) s = true) :
    startsWith p s = true := by
  induction p generalizing s with
  | nil => rfl
  | cons x xs ih =>
    match s with
    | [] => simp [startsWith] at h
    | c :: cs =>
      rw [List.cons_append, startsWith_cons] at h
      rw [startsWith_cons]
      split at h
      · rw [if_pos (by assumption)]
        exact ih cs h
      · simp at h

theorem hasOccur_mono_pat (p q s : List Char) (h : hasOccur (p ++ q) s = true) :
    hasOccur p s = true := by
  induction s with
  | nil =>
    simp only [hasOccur] at h ⊢
    match p, h with
    | [], _ => rfl
    | x :: xs, h => simp [startsWith] at h
  | cons c cs ih =>
    simp only [hasOccur, Bool.or_eq_true] at h ⊢
    rcases h with h | h
    · exact Or.inl (startsWith_append_left p q _ h)
    · exact Or.inr (ih h)

theorem startsWith_three_nil (x y z : Char) : startsWith [x, y, z] [] = false := rfl

theorem startsWith_three_one (x y z c : Char) : startsWith [x, y, z] [c] = false := by
  rw [startsWith_cons]
  split <;> rfl

theorem startsWith_three_two (x y z c d : Char) : startsWith [x, y, z] [c, d] = false := by
  rw [startsWith_cons]
  split
  · rw [startsWith_cons]
    split <;> rfl
  · rfl

theorem stripTicks_head (t r : List Char) (h : stripTicks t = btick :: r) :
    ∃ t', t = btick :: t' := by
  match t with
  | [] => simp [stripTicks_nil] at h
  | [c] =>
    rw [stripTicks_one] at h
    exact ⟨[], by rw [(List.cons.injEq c [] btick r |>.mp h).1]⟩
  | [c, d] =>
    rw [stripTicks_two] at h
    exact ⟨[d], by rw [(List.cons.injEq c [d] btick r |>.mp h).1]⟩
  | c1 :: c2 :: c3 :: rest =>
    rw [stripTicks_cons3] at h
    split at h
    · exact ⟨c2 :: c3 :: rest, by rename_i hb; rw [hb.1]⟩
    · exact ⟨c2 :: c3 :: rest, by rw [(List.cons.injEq _ _ _ _ |>.mp h).1]⟩

theorem stripTicks_head2 (t r : List Char)
    (h : stripTicks t = btick :: btick :: r) : ∃ t', t = btick :: btick :: t' := by
  match t with
  | [] => simp [stripTicks_nil] at h
  | [c] => rw [stripTicks_one] at h; simp at h
  | [c, d] =>
    rw [stripTicks_two] at h
    have hcd := List.cons.injEq c [d] btick (btick :: r) |>.mp h
    have hd := List.cons.injEq d [] btick r |>.mp hcd.2
    exact ⟨[], by rw [hcd.1, hd.1]⟩
  | c1 :: c2 :: c3 :: rest =>
    rw [stripTicks_cons3] at h
    split at h
    · rename_i hb
      exact ⟨c3 :: rest, by rw [hb.1, hb.2.1]⟩
    · have h1 := List.cons.injEq _ _ _ _ |>.mp h
      obtain ⟨t'', ht⟩ := stripTicks_head (c2 :: c3 :: rest) r h1.2
      have h2 := List.cons.injEq _ _ _ _ |>.mp ht
      exact ⟨c3 :: rest, by rw [h1.1, h2.1]⟩

theorem stripTicks_no_fence : ∀ t : List Char,
    hasOccur [btick, btick, btick] (stripTicks t) = false
  | [] => rfl
  | [c] => by
    rw [stripTicks_one]
    show (startsWith [btick, btick, btick] [c]
      || hasOccur [btick, btick, btick] []) = false
    rw [startsWith_three_one]
    rfl
  | [c, d] => by
    rw [stripTicks_two]
    show (startsWith [btick, btick, btick] [c, d]
      || (startsWith [btick, btick, btick] [d] || hasOccur [btick, btick, btick] [])) = false
    rw [startsWith_three_two, startsWith_three_one]
    rfl
  | c1 :: c2 :: c3 :: rest => by
    rw [stripTicks_cons3]
    split
    · exact stripTicks_no_fence rest
    · rename_i hb
      have hR := stripTicks_no_fence (c2 :: c3 :: rest)
      show (startsWith [btick, btick, btick] (c1 :: stripTicks (c2 :: c3 :: rest))
        || hasOccur [btick, btick, btick] (stripTicks (c2 :: c3 :: rest))) = false
      rw [hR, Bool.or_false, startsWith_cons]
      split
      · rename_i hc1
        by_cases hsw : startsWith [btick, btick] (stripTicks (c2 :: c3 :: rest)) = true
        · obtain ⟨r, hr⟩ := startsWith_pair btick btick _ hsw
          obtain ⟨t', ht⟩ := stripTicks_head2 (c2 :: c3 :: rest) r hr
          have h2 := List.cons.injEq _ _ _ _ |>.mp ht
          have h3 := List.cons.injEq _ _ _ _ |>.mp h2.2
          exact absurd ⟨hc1.symm, h2.1, h3.1⟩ hb
        · exact Bool.not_eq_true _ |>.mp hsw
      · rfl

/-- A decimal number `mant / 10 ^ scale`, kept unnormalized exactly as the
digits were read (so `12.50` is mantissa `1250`, scale `2`). -/
structure PyNum where
  mant : Int
  scale : Nat
deriving DecidableEq

/-- JSON values as returned by `json.loads` (modelled fragment: numbers
without exponent notation, string escapes limited to the common ones). -/
inductive Json where
  | null
  | bool (b : Bool)
  | num (v : PyNum)
  | str (s : String)
  | arr (elems : List Json)
  | obj (members : List (String × Json))

/-- ASCII decimal digit. -/
def isDigitChar (c : Char) : Bool := '0' ≤ c ∧ c ≤ '9'

/-- Numeric value of a digit character. -/
def digitVal (c : Char) : Nat := c.toNat - 48

/-- Decimal value of a digit list. -/
def natOfDigits (ds : List Char) : Nat := ds.foldl (fun a c => a * 10 + digitVal c) 0

/-- Parse a maximal non-empty run of digits: value, digit count, rest. -/
def parseDigits (s : List Char) : Option (Nat × Nat × List Char) :=
  let ds := s.takeWhile isDigitChar
  if ds.isEmpty then none
  else some (natOfDigits ds, ds.length, s.dropWhile isDigitChar)

/-- Parse a JSON number: optional minus, digits, optional fractional part. -/
def parseNumber (s : List Char) : Option (PyNum × List Char) :=
  let signAndRest : Bool × List Char :=
    match s with
    | c :: rest => if c = '-' then (true, rest) else (false, s)
    | [] => (false, s)
  match parseDigits signAndRest.2 with
  | none => none
  | some (n, _, r1) =>
    let withSign : Int → Int := fun m => if signAndRest.1 then -m else m
    match r1 with
    | '.' :: r2 =>
      match parseDigits r2 with
      | none => none
      | some (f, k, r3) => some (⟨withSign ((n : Int) * (10 : Int) ^ k + (f : Int)), k⟩, r3)
    | _ => some (⟨withSign (n : Int), 0⟩, r1)

/-- Escape characters accepted after a backslash in a JSON string. -/
def escChar (c : Char) : Option Char :=
  if c = '"' then some '"'
  else if c = '\\' then some '\\'
  else if c = '/' then some '/'
  else if c = 'n' then some '\n'
  else if c = 't' then some '\t'
  else if c = 'r' then some '\r'
  else none

/-- Parse the body of a JSON string after the opening quote: content, rest. -/
def parseStringBody : List Char → Option (List Char × List Char)
  | [] => none
  | '\\' :: e :: rest =>
    match escChar e with
    | none => none
    | some ec => (parseStringBody rest).map (fun p => (ec :: p.1, p.2))
  | c :: rest =>
    if c = '"' then some ([], rest)
    else (parseStringBody rest).map (fun p => (c :: p.1, p.2))

/-- Skip JSON whitespace. -/
def skipWs (s : List Char) : List Char := List.dropWhile isSpaceChar s

mutual

/-- Parse one JSON value (fuel-based recursion). -/
def parseValue : Nat → List Char → Option (Json × List Char)
  | 0, _ => none
  | fuel + 1, s =>
    match skipWs s with
    | [] => none
    | c :: rest =>
      if c = '"' then
        match parseStringBody rest with
        | none => none
        | some (b, r) => some (Json.str (String.mk b), r)
      else if c = 'n' then
        match rest with
        | 'u' :: 'l' :: 'l' :: r => some (Json.null, r)
        | _ => none
      else if c = 't' then
        match rest with
        | 'r' :: 'u' :: 'e' :: r => some (Json.bool true, r)
        | _ => none
      else if c = 'f' then
        match rest with
        | 'a' :: 'l' :: 's' :: 'e' :: r => some (Json.bool false, r)
        | _ => none
      else if c = '[' then (parseArrItems fuel rest).map (fun p => (Json.arr p.1, p.2))
      else if c = lbrace then (parseObjItems fuel rest).map (fun p => (Json.obj p.1, p.2))
      else (parseNumber (c :: rest)).map (fun p => (Json.num p.1, p.2))

/-- Parse array items after the opening bracket. -/
def parseArrItems : Nat → List Char → Option (List Json × List Char)
  | 0, _ => none
  | fuel + 1, s =>
    match skipWs s with
    | ']' :: r => some ([], r)
    | s' =>
      match parseValue fuel s' with
      | none => none
      | some (v, r) => (parseArrRest fuel r).map (fun p => (v :: p.1, p.2))

/-- Parse the continuation of an array: comma plus item, or closing bracket. -/
def parseArrRest : Nat → List Char → Option (List Json × List Char)
  | 0, _ => none
  | fuel + 1, s =>
    match skipWs s with
    | ']' :: r => some ([], r)
    | ',' :: r =>
      match parseValue fuel r with
      | none => none
      | some (v, r2) => (parseArrRest fuel r2).map (fun p => (v :: p.1, p.2))
    | _ => none

/-- Parse one object member: quoted key, colon, value. -/
def parseMember : Nat → List Char → Option ((String × Json) × List Char)
  | 0, _ => none
  | fuel + 1, s =>
    match skipWs s with
    | [] => none
    | c :: r =>
      if c = '"' then
        match parseStringBody r with
        | none => none
        | some (k, r1) =>
          match skipWs r1 with
          | ':' :: r2 =>
            match parseValue fuel r2 with
            | none => none
            | some (v, r3) => some ((String.mk k, v), r3)
          | _ => none
      else none

/-- Parse object members after the opening brace. -/
def parseObjItems : Nat → List Char → Option (List (String × Json) × List Char)
  | 0, _ => none
  | fuel + 1, s =>
    match skipWs s with
    | [] => none
    | c :: r =>
      if c = rbrace then some ([], r)
      else
        match parseMember fuel (c :: r) with
        | none => none
        | some (kv, r1) => (parseObjRest fuel r1).map (fun p => (kv :: p.1, p.2))

/-- Parse the continuation of an object: comma plus member, or closing brace. -/
def parseObjRest : Nat → List Char → Option (List (String × Json) × List Char)
  | 0, _ => none
  | fuel + 1, s =>
    match skipWs s with
    | [] => none
    | c :: r =>
      if c = rbrace then some ([], r)
      else if c = ',' then
        match parseMember fuel r with
        | none => none
        | some (kv, r1) => (parseObjRest fuel r1).map (fun p => (kv :: p.1, p.2))
      else none

end

/-- `json.loads`: the whole text must be a single JSON value, possibly
surrounded by whitespace. -/
def jsonLoads (s : String) : Option Json :=
  match parseValue (s.toList.length + 1) s.toList with
  | none => none
  | some (v, rest) => if (skipWs rest).isEmpty then some v else none

/-- What happened for one image file when the extractor processed it:
opening the image raised, the vision-model call raised, or the model
returned a response text. -/
inductive ImageSource where
  | openFailure (err : String)
  | modelFailure (err : String)
  | response (text : String)

/-- One candidate image: its filename and what its processing yields. -/
structure ImageFile where
  name : String
  source : ImageSource

/-- The body of the per-image `try` block (src lines 41-46): open the
image, send it to the vision model, strip code-fence markup from the
response, parse the remainder with `json.loads`; any raised error is the
failure cause for this image. The parsed value is appended as-is: no
check that the five fields are present or typed. -/
def processImage (img : ImageFile) : Except String Json :=
  match img.source with
  | .openFailure e => .error e
  | .modelFailure e => .error e
  | .response t =>
    match jsonLoads (fenceStripped t) with
    | some v => .ok v
    | none => .error "JSONDecodeError"

/-- `parse_invoices_from_images` (src lines 21-49): process every image in
order; a successful parse is appended to the record list, an exception is
caught, reported with the filename, and the loop continues with the next
image. Returns the record list and the recorded failures. -/
def parse_invoices_from_images : List ImageFile → List Json × List (String × String)
  | [] => ([], [])
  | img :: rest =>
    match processImage img with
    | .ok v => ((parse_invoices_from_images rest).1.cons v, (parse_invoices_from_images rest).2)
    | .error e => ((parse_invoices_from_images rest).1, ((parse_invoices_from_images rest).2).cons (img.name, e))

/-- Gregorian leap year. -/
def isLeapYear (y : Nat) : Bool := (y % 4 = 0 && y % 100 ≠ 0) || y % 400 = 0

/-- Days in a month of the Gregorian calendar. -/
def daysInMonth (y m : Nat) : Nat :=
  if m = 2 then (if isLeapYear y then 29 else 28)
  else if m = 4 ∨ m = 6 ∨ m = 9 ∨ m = 11 then 30
  else 31

/-- Calendar validity of a year-month-day triple. -/
def validDate (y m d : Nat) : Bool :=
  1 ≤ m && m ≤ 12 && 1 ≤ d && d ≤ daysInMonth y m

/-- Day ordinal of a calendar date (civil-from-days style encoding); the
timestamp value a date column cell carries after `pd.to_datetime`. -/
def dateOrdinal (y m d : Nat) : Int :=
  let y' := if m ≤ 2 then y - 1 else y
  let era := y' / 400
  let yoe := y' % 400
  let mp := (m + 9) % 12
  let doy := (153 * mp + 2) / 5 + d - 1
  let doe := yoe * 365 + yoe / 4 - yoe / 100 + doy
  (era * 146097 + doe : Nat)

/-- Parse a date string in the ISO `YYYY-MM-DD` form the extraction prompt
requests, checking calendar validity. -/
def parseIsoDate (s : String) : Option (Nat × Nat × Nat) :=
  match s.toList with
  | [y1, y2, y3, y4, h1, m1, m2, h2, d1, d2] =>
    if h1 = '-' ∧ h2 = '-' ∧ ([y1, y2, y3, y4, m1, m2, d1, d2].all isDigitChar) then
      let y := natOfDigits [y1, y2, y3, y4]
      let m := natOfDigits [m1, m2]
      let d := natOfDigits [d1, d2]
      if validDate y m d then some (y, m, d) else none
    else none
  | _ => none

/-- `pd.to_datetime` on one cell (modelled fragment: the ISO form the
prompt requests; a missing value or JSON null becomes `NaT`; any other
value raises, matching the default `errors` policy). -/
def toDatetimeCell : Option Json → Except String (Option Int)
  | none => .ok none
  | some .null => .ok none
  | some (.str s) =>
    match parseIsoDate s with
    | some ymd => .ok (some (dateOrdinal ymd.1 ymd.2.1 ymd.2.2))
    | none => .error ("could not parse date " ++ s)
  | some _ => .error "invalid date value"

/-- A numeric string for `pd.to_numeric`: optional surrounding whitespace
around a decimal number. -/
def parsePyNumber (s : String) : Option PyNum :=
  match parseNumber (pyStrip s.toList) with
  | some (v, []) => some v
  | _ => none

/-- `pd.to_numeric` on one cell: numbers pass through, booleans become 0/1,
numeric strings are parsed, missing values and JSON null become NaN; any
other value raises, matching the default `errors` policy. -/
def toNumericCell : Option Json → Except String (Option PyNum)
  | none => .ok none
  | some .null => .ok none
  | some (.num v) => .ok (some v)
  | some (.bool b) => .ok (some ⟨if b then 1 else 0, 0⟩)
  | some (.str s) =>
    match parsePyNumber s with
    | some v => .ok (some v)
    | none => .error ("Unable to parse string " ++ s)
  | some _ => .error "invalid numeric value"

/-- A raw record: the key-value pairs of one parsed JSON object, in order. -/
abbrev Record := List (String × Json)

/-- View a parsed JSON value as a record (non-objects contribute no keys). -/
def asRecord : Json → Record
  | .obj kvs => kvs
  | _ => []

/-- The keys of a record. -/
def recordKeys (r : Record) : List String := r.map Prod.fst

/-- Cell lookup: the value stored under a key, `none` when the key is
absent (pandas fills such cells with NaN). -/
def lookupCell (r : Record) (k : String) : Option Json :=
  (r.find? (fun p => p.1 = k)).map Prod.snd

/-- Column access on the raw dataframe: `df[k]` raises `KeyError` when no
record has the key (the column does not exist); otherwise it is the list
of per-record cells. -/
def getColumn (data : List Record) (k : String) : Except String (List (Option Json)) :=
  if data.any (fun r => (recordKeys r).contains k) then
    .ok (data.map (fun r => lookupCell r k))
  else .error ("KeyError: " ++ k)

/-- A row of the built dataframe: the original record plus the three
coerced columns (dates as day ordinals, `none` = NaT / NaN). -/
structure BuiltRow where
  record : Record
  invoice_date : Option Int
  due_date : Option Int
  total : Option PyNum

/-- The built dataframe. -/
structure Frame where
  rows : List BuiltRow

/-- Reassemble rows from the original records and the coerced columns. -/
def zipBuiltRows : List Record → List (Option Int) → List (Option Int) → List (Option PyNum) → List BuiltRow
  | r :: rs, a :: ra, b :: rb, c :: rc => ⟨r, a, b, c⟩ :: zipBuiltRows rs ra rb rc
  | _, _, _, _ => []

/-- `create_pandas_dataframe` (src lines 51-63): an empty input list
yields an empty frame; otherwise the three expected columns are looked up
(`KeyError` if absent) and coerced column-wide with `pd.to_datetime` /
`pd.to_numeric`, which raise on the first cell that fails to convert —
no row is dropped. -/
def create_pandas_dataframe (data : List Record) : Except String Frame :=
  if data.isEmpty then .ok ⟨[]⟩
  else do
    let invCells ← getColumn data "invoice_date"
    let inv ← invCells.mapM toDatetimeCell
    let dueCells ← getColumn data "due_date"
    let due ← dueCells.mapM toDatetimeCell
    let totCells ← getColumn data "total"
    let tot ← totCells.mapM toNumericCell
    .ok ⟨zipBuiltRows data inv due tot⟩

/-- The end of the batch stage of `__main__` (src lines 148-155): extract
records from the images, then build the dataframe from them; an exception
raised by the build is uncaught there and terminates the process. -/
def buildPipeline (imgs : List ImageFile) : Except String Frame :=
  create_pandas_dataframe ((parse_invoices_from_images imgs).1.map asRecord)

/-- External world visible to an executed query: a file system and a count
of opened network connections. -/
structure World where
  files : List (String × String)
  connections : Nat
deriving DecidableEq

/-- The globals mapping passed to `exec` (src line 129) holds exactly
these names. -/
def execExplicitGlobals : List String := ["df", "pd", "today_date"]

/-- Names reachable in the executed code's global scope: CPython inserts a
reference to the builtins module under the key `__builtins__` whenever the
globals mapping given to `exec` lacks that key, as it does here. -/
def execGlobalNames : List String := execExplicitGlobals ++ ["__builtins__"]

/-- A representative fragment of the builtin names thereby reachable. -/
def builtinNames : List String :=
  ["print", "len", "open", "input", "__import__", "eval", "exec", "getattr", "compile"]

/-- Whether a global name resolves in the executed query's scope. -/
def resolvable (n : String) : Bool :=
  execExplicitGlobals.contains n || builtinNames.contains n

/-- Single-line Python statements a generated query can be (modelled
fragment): the worked examples of the synthesis prompt (src lines
94-105), table-mutating statements, file/import/network operations
reached through the injected builtins, and a bare name reference. -/
inductive QueryStmt where
  | printLenDf
  | printSumTotal
  | printCountDueWithin (days : Int)
  | printVendorsOver (amount : PyNum)
  | assignTotal (v : PyNum)
  | dropAllRows
  | openWrite (path text : String)
  | openReadPrint (path : String)
  | osRemove (path : String)
  | socketConnect (host : String)
  | refName (n : String)
deriving DecidableEq

/-- Exact addition of decimal numbers (common-denominator form). -/
def PyNum.add (a b : PyNum) : PyNum :=
  ⟨a.mant * (10 : Int) ^ b.scale + b.mant * (10 : Int) ^ a.scale, a.scale + b.scale⟩

/-- Strict comparison of decimal numbers. -/
def PyNum.gtb (a b : PyNum) : Bool :=
  b.mant * (10 : Int) ^ a.scale < a.mant * (10 : Int) ^ b.scale

/-- `df[total-column].sum()`: NaN cells are skipped, as pandas does. -/
def totalSum (df : Frame) : PyNum :=
  (df.rows.filterMap BuiltRow.total).foldl PyNum.add ⟨0, 0⟩

/-- Crude decimal rendering for captured output. -/
def renderNum (v : PyNum) : String :=
  toString v.mant ++ (if v.scale = 0 then "" else "e-" ++ toString v.scale)

/-- `Series.between(lo, hi)`: inclusive on both endpoints (the pandas
default). -/
def betweenB (d lo hi : Int) : Bool := decide (lo ≤ d) && decide (d ≤ hi)

/-- The rows selected by
`df[df[due-column].between(today_date, today_date + pd.Timedelta(days=days))]`
(src line 102): NaT cells compare false and are never selected. -/
def dueFiltered (df : Frame) (today days : Int) : List BuiltRow :=
  df.rows.filter (fun r =>
    match r.due_date with
    | some d => betweenB d today (today + days)
    | none => false)

/-- The vendor cell of a row, rendered as text. -/
def vendorCell (r : BuiltRow) : String :=
  match lookupCell r.record "vendor" with
  | some (Json.str s) => s
  | _ => ""

/-- Content of a file, if present. -/
def lookupFile (fs : List (String × String)) (p : String) : Option String :=
  (fs.find? (fun e => e.1 = p)).map Prod.snd

/-- Write a file (create or overwrite). -/
def setFile (fs : List (String × String)) (p t : String) : List (String × String) :=
  if fs.any (fun e => e.1 = p) then fs.map (fun e => if e.1 = p then (p, t) else e)
  else fs ++ [(p, t)]

/-- Delete a file. -/
def removeFile (fs : List (String × String)) (p : String) : List (String × String) :=
  fs.filter (fun e => ¬ e.1 = p)

/-- One `exec(generated_code, globals-with-df-pd-today)` call (src lines
127-130). The frame is shared by reference, so mutating statements change
it; builtins are reachable (see `execGlobalNames`), so file, import and
network operations run and succeed; a bare name outside the explicit
globals and the builtins raises `NameError`. A `.error` result models the
raised exception that the surrounding `try` of the session loop catches. -/
def execStmt (q : QueryStmt) (df : Frame) (today : Int) (w : World) :
    Except String (Frame × World × String) :=
  match q with
  | .printLenDf => .ok (df, w, toString df.rows.length)
  | .printSumTotal => .ok (df, w, renderNum (totalSum df))
  | .printCountDueWithin days => .ok (df, w, toString (dueFiltered df today days).length)
  | .printVendorsOver amount =>
    .ok (df, w, String.intercalate "\n"
      ((df.rows.filter (fun r =>
        match r.total with
        | some t => PyNum.gtb t amount
        | none => false)).map vendorCell))
  | .assignTotal v =>
    .ok (⟨df.rows.map (fun r => ⟨r.record, r.invoice_date, r.due_date, some v⟩)⟩, w, "")
  | .dropAllRows => .ok (⟨[]⟩, w, "")
  | .openWrite p t => .ok (df, ⟨setFile w.files p t, w.connections⟩, "")
  | .openReadPrint p =>
    match lookupFile w.files p with
    | some content => .ok (df, w, content)
    | none => .error "FileNotFoundError"
  | .osRemove p =>
    match lookupFile w.files p with
    | some _ => .ok (df, ⟨removeFile w.files p, w.connections⟩, "")
    | none => .error "FileNotFoundError"
  | .socketConnect _ => .ok (df, ⟨w.files, w.connections + 1⟩, "")
  | .refName n => if resolvable n then .ok (df, w, "") else .error "NameError"

/-- Syntactic check: does the statement mutate the dataframe object? -/
def mutatesTable : QueryStmt → Bool
  | .assignTotal _ => true
  | .dropAllRows => true
  | _ => false

/-- One turn's interaction with the model service: the user's question,
the synthesis call's result (a query, or a raised service error) and the
summarization call's result. -/
structure TurnEnv where
  question : String
  synthResult : Except String QueryStmt
  composeResult : Except String String

/-- Outcome of one loop iteration. -/
inductive TurnOutcome where
  | exited
  | answered (text : String)
  | failed (err : String)
deriving DecidableEq

/-- ASCII lowering of one character. -/
def lowerChar (c : Char) : Char :=
  if 'A' ≤ c ∧ c ≤ 'Z' then Char.ofNat (c.toNat + 32) else c

/-- Python `str.lower()` (ASCII fragment). -/
def lowerAscii (s : String) : String := String.mk (s.toList.map lowerChar)

/-- One iteration of the interactive loop (src lines 110-145): the exit
sentinel is matched case-insensitively before any model call; otherwise
the turn runs synthesize, execute, compose inside `try`, and any raised
error is caught and reported. Returns the outcome, the frame and world
after the turn, and the number of model calls made. -/
def runTurn (df : Frame) (today : Int) (w : World) (t : TurnEnv) :
    TurnOutcome × Frame × World × Nat :=
  if lowerAscii t.question = "exit" then (.exited, df, w, 0)
  else
    match t.synthResult with
    | .error e => (.failed e, df, w, 1)
    | .ok q =>
      match execStmt q df today w with
      | .error e => (.failed e, df, w, 1)
      | .ok (df', w', _out) =>
        match t.composeResult with
        | .error e => (.failed e, df', w', 2)
        | .ok ans => (.answered ans, df', w', 2)

/-- The interactive loop over a finite input stream: the exit sentinel
stops it (remaining inputs unread); every other outcome is recorded and
the loop continues with the state the turn produced. Returns the turn
outcomes and the total number of model calls. -/
def runLoop (df : Frame) (today : Int) (w : World) : List TurnEnv → List TurnOutcome × Nat
  | [] => ([], 0)
  | t :: ts =>
    match runTurn df today w t with
    | (.exited, _, _, k) => ([.exited], k)
    | (o, df', w', k) =>
      let rest := runLoop df' today w' ts
      (o :: rest.1, k + rest.2)

/-- Observable result of `start_chatbot_agent`: whether it returned
immediately on an empty frame, the turn outcomes, the total model calls,
and the process exit code (0 on every path modelled here). -/
structure SessionTrace where
  noDataExit : Bool
  outcomes : List TurnOutcome
  modelCalls : Nat
  exitCode : Nat
deriving DecidableEq

/-- `start_chatbot_agent` (src lines 65-145): an empty frame is reported
and the function returns before the interactive loop starts; otherwise
the loop runs over the input stream. -/
def start_chatbot_agent (df : Frame) (today : Int) (w : World) (inputs : List TurnEnv) :
    SessionTrace :=
  if df.rows.isEmpty then ⟨true, [], 0, 0⟩
  else
    let r := runLoop df today w inputs
    ⟨false, r.1, r.2, 0⟩

theorem except_bind_ok {α β : Type} (a : α) (f : α → Except String β) :
    (Except.ok a >>= f) = f a := rfl

theorem except_bind_error {α β : Type} (e : String) (f : α → Except String β) :
    ((Except.error e : Except String α) >>= f) = Except.error e := rfl

theorem mapM_except_ok {α β : Type} (f : α → Except String β) :
    ∀ (xs : List α) (ys : List β), xs.mapM f = Except.ok ys →
      ys.length = xs.length ∧ ∀ y ∈ ys, ∃ x ∈ xs, f x = Except.ok y := by
  intro xs
  induction xs with
  | nil =>
    intro ys h
    simp only [List.mapM_nil, pure] at h
    cases h
    exact ⟨rfl, by intro y hy; simp at hy⟩
  | cons x xs ih =>
    intro ys h
    rw [List.mapM_cons] at h
    cases hfx : f x with
    | error e => rw [hfx] at h; simp [except_bind_error] at h
    | ok y0 =>
      rw [hfx, except_bind_ok] at h
      cases hmx : xs.mapM f with
      | error e => rw [hmx] at h; simp [except_bind_error] at h
      | ok ys0 =>
        rw [hmx, except_bind_ok] at h
        simp only [pure] at h
        cases h
        obtain ⟨hlen, hmem⟩ := ih ys0 hmx
        refine ⟨by simp [hlen], ?_⟩
        intro y hy
        rcases List.mem_cons.mp hy with hy | hy
        · exact ⟨x, List.mem_cons_self x xs, by rw [← hy] at hfx; exact hfx⟩
        · obtain ⟨x', hx', hfx'⟩ := hmem y hy
          exact ⟨x', List.mem_cons_of_mem x hx', hfx'⟩

theorem zipBuiltRows_length (rs : List Record) :
    ∀ (la lb : List (Option Int)) (lc : List (Option PyNum)),
      la.length = rs.length → lb.length = rs.length → lc.length = rs.length →
      (zipBuiltRows rs la lb lc).length = rs.length := by
  induction rs with
  | nil => intro la lb lc _ _ _; rfl
  | cons r rs ih =>
    intro la lb lc ha hb hc
    match la, lb, lc with
    | [], _, _ => simp at ha
    | _ :: _, [], _ => simp at hb
    | _ :: _, _ :: _, [] => simp at hc
    | x :: la', y :: lb', z :: lc' =>
      show (zipBuiltRows (r :: rs) (x :: la') (y :: lb') (z :: lc')).length = rs.length + 1
      rw [zipBuiltRows]
      simp only [List.length_cons]
      rw [ih la' lb' lc' (by simpa using ha) (by simpa using hb) (by simpa using hc)]

theorem zipBuiltRows_mem (row : BuiltRow) (rs : List Record) :
    ∀ (la lb : List (Option Int)) (lc : List (Option PyNum)),
      row ∈ zipBuiltRows rs la lb lc →
      row.invoice_date ∈ la ∧ row.due_date ∈ lb ∧ row.total ∈ lc := by
  induction rs with
  | nil => intro la lb lc h; simp [zipBuiltRows] at h
  | cons r rs ih =>
    intro la lb lc h
    match la, lb, lc with
    | [], _, _ => simp [zipBuiltRows] at h
    | _ :: _, [], _ => simp [zipBuiltRows] at h
    | _ :: _, _ :: _, [] => simp [zipBuiltRows] at h
    | x :: la', y :: lb', z :: lc' =>
      rw [zipBuiltRows] at h
      rcases List.mem_cons.mp h with h | h
      · subst h
        exact ⟨List.mem_cons_self _ _, List.mem_cons_self _ _, List.mem_cons_self _ _⟩
      · obtain ⟨h1, h2, h3⟩ := ih la' lb' lc' h
        exact ⟨List.mem_cons_of_mem _ h1, List.mem_cons_of_mem _ h2, List.mem_cons_of_mem _ h3⟩

theorem parseIsoDate_valid (s : String) (y m d : Nat)
    (h : parseIsoDate s = some (y, m, d)) : validDate y m d = true := by
  unfold parseIsoDate at h
  split at h
  · split at h
    · dsimp only at h
      split at h
      · rename_i hv
        injection h with h'
        obtain ⟨rfl, h''⟩ := Prod.mk.injEq _ _ _ _ |>.mp h'
        obtain ⟨rfl, rfl⟩ := Prod.mk.injEq _ _ _ _ |>.mp h''
        exact hv
      · exact absurd h (by simp)
    · exact absurd h (by simp)
  · exact absurd h (by simp)

theorem toDatetimeCell_ok (cell : Option Json) (o : Option Int)
    (h : toDatetimeCell cell = .ok o) :
    o = none ∨ ∃ y m d, validDate y m d = true ∧ o = some (dateOrdinal y m d) := by
  match cell with
  | none => left; injection h with h; exact h.symm
  | some Json.null => left; injection h with h; exact h.symm
  | some (Json.str s) =>
    rw [toDatetimeCell] at h
    cases hp : parseIsoDate s with
    | none => rw [hp] at h; exact absurd h (by simp)
    | some ymd =>
      rw [hp] at h
      injection h with h
      right
      exact ⟨ymd.1, ymd.2.1, ymd.2.2,
        parseIsoDate_valid s ymd.1 ymd.2.1 ymd.2.2 (by rw [hp]), h.symm⟩
  | some (Json.bool b) => exact absurd h (by simp [toDatetimeCell])
  | some (Json.num v) => exact absurd h (by simp [toDatetimeCell])
  | some (Json.arr xs) => exact absurd h (by simp [toDatetimeCell])
  | some (Json.obj kvs) => exact absurd h (by simp [toDatetimeCell])

/-- A sample built row with the given due date and total. -/
def sampleRow (due : Int) (tot : PyNum) : BuiltRow :=
  ⟨[("vendor", Json.str "Acme")], some 0, some due, some tot⟩

/-- A sample two-row frame. -/
def sampleFrame : Frame := ⟨[sampleRow 3 ⟨100, 0⟩, sampleRow 9 ⟨200, 0⟩]⟩

/-- The world with no files and no connections. -/
def emptyWorld : World := ⟨[], 0⟩

/-- C10 (confirmed): the fence-stripping step deletes every occurrence of
the json fence opener and of three backquotes anywhere in the response
text — the stripped text contains neither substring, not merely no
leading or trailing fence — and the per-image step parses exactly the
stripped text with `json.loads`, which succeeds only when that text is a
single valid JSON value. -/
theorem c10_fence_stripping_global (s name : String) :
    hasOccur [btick, btick, btick] (fenceStripped s).toList = false
    ∧ hasOccur fenceJsonChars (fenceStripped s).toList = false
    ∧ processImage ⟨name, ImageSource.response s⟩ =
        (match jsonLoads (fenceStripped s) with
         | some v => Except.ok v
         | none => Except.error "JSONDecodeError") := by
  have h3 : hasOccur [btick, btick, btick] (fenceStripped s).toList = false :=
    stripTicks_no_fence (stripJsonFence (pyStrip s.toList))
  refine ⟨h3, ?_, rfl⟩
  by_cases h : hasOccur fenceJsonChars (fenceStripped s).toList = true
  · have h' : hasOccur ([btick, btick, btick] ++ [ 'j', 's', 'o', 'n']) (fenceStripped s).toList = true := h
    have h'' := hasOccur_mono_pat [btick, btick, btick] [ 'j', 's', 'o', 'n'] _ h'
    rw [h3] at h''
    exact absurd h'' (by simp)
  · exact Bool.eq_false_iff.mpr h

/-- C6 (confirmed): with an empty built table the session reports that
there is no data and returns before the interactive loop: no turn is
processed, no model call is made, and the exit code is 0. -/
theorem c6_empty_dataset_exits (df : Frame) (today : Int) (w : World)
    (inputs : List TurnEnv) (h : df.rows = []) :
    start_chatbot_agent df today w inputs = ⟨true, [], 0, 0⟩ := by
  rw [start_chatbot_agent, if_pos (by rw [h]; rfl)]

/-- C6 witness: a concrete empty frame with a pending input. -/
theorem c6_witness :
    (Frame.mk []).rows = []
    ∧ start_chatbot_agent ⟨[]⟩ 0 emptyWorld
        [⟨"how many", Except.error "down", Except.error "down"⟩] = ⟨true, [], 0, 0⟩ :=
  ⟨rfl, c6_empty_dataset_exits ⟨[]⟩ 0 emptyWorld
    [⟨"how many", Except.error "down", Except.error "down"⟩] rfl⟩

/-- C7 (confirmed): an input equal to exit in any letter case ends the
turn with zero model calls, terminates the loop without reading further
inputs, and the session ends with exit code 0. -/
theorem c7_exit_sentinel (df : Frame) (today : Int) (w : World)
    (q : String) (sr : Except String QueryStmt) (cr : Except String String)
    (ts : List TurnEnv) (h : lowerAscii q = "exit") :
    runTurn df today w ⟨q, sr, cr⟩ = (.exited, df, w, 0)
    ∧ runLoop df today w (⟨q, sr, cr⟩ :: ts) = ([.exited], 0)
    ∧ (df.rows.isEmpty = false →
        start_chatbot_agent df today w (⟨q, sr, cr⟩ :: ts) = ⟨false, [.exited], 0, 0⟩) := by
  have h1 : runTurn df today w ⟨q, sr, cr⟩ = (.exited, df, w, 0) := by
    rw [runTurn]
    dsimp only
    rw [if_pos h]
  have h2 : runLoop df today w (⟨q, sr, cr⟩ :: ts) = ([.exited], 0) := by
    simp only [runLoop, h1]
  refine ⟨h1, h2, fun hne => ?_⟩
  rw [start_chatbot_agent, if_neg (by rw [hne]; simp)]
  simp only [h2]

/-- C7 witness: the concrete input EXIT on a non-empty frame. -/
theorem c7_witness :
    lowerAscii "EXIT" = "exit"
    ∧ (runTurn sampleFrame 0 emptyWorld ⟨"EXIT", Except.error "down", Except.error "down"⟩
        = (.exited, sampleFrame, emptyWorld, 0)
      ∧ runLoop sampleFrame 0 emptyWorld
          [⟨"EXIT", Except.error "down", Except.error "down"⟩] = ([.exited], 0)
      ∧ (sampleFrame.rows.isEmpty = false →
          start_chatbot_agent sampleFrame 0 emptyWorld
            [⟨"EXIT", Except.error "down", Except.error "down"⟩] = ⟨false, [.exited], 0, 0⟩)) :=
  ⟨rfl, c7_exit_sentinel sampleFrame 0 emptyWorld "EXIT"
    (Except.error "down") (Except.error "down") [] rfl⟩

/-- C8 (confirmed): the reference filter for due-in-the-next-7-days
selects a row exactly when its due date lies in the inclusive window from
the reference date through the reference date plus 7 days; a due date
exactly 8 days after the reference date is excluded; the worked-example
query prints the size of this selection. -/
theorem c8_due_in_next_7_days (df : Frame) (today : Int) (r : BuiltRow)
    (h : r ∈ df.rows) :
    (r ∈ dueFiltered df today 7 ↔ ∃ d, r.due_date = some d ∧ today ≤ d ∧ d ≤ today + 7)
    ∧ (r.due_date = some (today + 8) → r ∉ dueFiltered df today 7)
    ∧ execStmt (.printCountDueWithin 7) df today emptyWorld
        = .ok (df, emptyWorld, toString (dueFiltered df today 7).length) := by
  have hiff : r ∈ dueFiltered df today 7 ↔ ∃ d, r.due_date = some d ∧ today ≤ d ∧ d ≤ today + 7 := by
    rw [dueFiltered, List.mem_filter]
    constructor
    · rintro ⟨-, hp⟩
      cases hd : r.due_date with
      | none => rw [hd] at hp; simp at hp
      | some d =>
        rw [hd] at hp
        simp only [betweenB, Bool.and_eq_true, decide_eq_true_eq] at hp
        exact ⟨d, rfl, hp.1, hp.2⟩
    · rintro ⟨d, hd, hlo, hhi⟩
      refine ⟨h, ?_⟩
      rw [hd]
      simp only [betweenB, Bool.and_eq_true, decide_eq_true_eq]
      exact ⟨hlo, hhi⟩
  refine ⟨hiff, ?_, rfl⟩
  intro hd hmem
  obtain ⟨d, hd', hlo, hhi⟩ := hiff.mp hmem
  rw [hd] at hd'
  injection hd' with hd'
  omega

/-- C8 witness: a concrete row due 3 days after reference date 0. -/
theorem c8_witness :
    sampleRow 3 ⟨100, 0⟩ ∈ sampleFrame.rows
    ∧ ((sampleRow 3 ⟨100, 0⟩ ∈ dueFiltered sampleFrame 0 7 ↔
         ∃ d, (sampleRow 3 ⟨100, 0⟩).due_date = some d ∧ 0 ≤ d ∧ d ≤ 0 + 7)
      ∧ ((sampleRow 3 ⟨100, 0⟩).due_date = some (0 + 8) →
          sampleRow 3 ⟨100, 0⟩ ∉ dueFiltered sampleFrame 0 7)
      ∧ execStmt (.printCountDueWithin 7) sampleFrame 0 emptyWorld
          = .ok (sampleFrame, emptyWorld, toString (dueFiltered sampleFrame 0 7).length)) :=
  ⟨List.mem_cons_self _ _,
   c8_due_in_next_7_days sampleFrame 0 (sampleRow 3 ⟨100, 0⟩) (List.mem_cons_self _ _)⟩

/-- C9 (confirmed): on a non-empty input in which no record carries any of
the expected keys, the build raises — the lookup of the missing invoice
date column is a KeyError — instead of returning a table with those
records excluded. -/
theorem c9_missing_column_raises (data : List Record) (hne : data ≠ [])
    (h1 : ∀ r ∈ data, "invoice_date" ∉ recordKeys r)
    (h2 : ∀ r ∈ data, "due_date" ∉ recordKeys r)
    (h3 : ∀ r ∈ data, "total" ∉ recordKeys r) :
    create_pandas_dataframe data = .error "KeyError: invoice_date" := by
  have hfalse : data.any (fun r => (recordKeys r).contains "invoice_date") = false := by
    by_contra hany
    rw [Bool.not_eq_false] at hany
    obtain ⟨r, hr, hc⟩ := List.any_eq_true.mp hany
    exact h1 r hr (List.mem_of_elem_eq_true hc)
  have hg : getColumn data "invoice_date" = .error "KeyError: invoice_date" := by
    rw [getColumn, if_neg (by rw [hfalse]; simp)]
    rfl
  rw [create_pandas_dataframe, if_neg (by simp [hne])]
  rw [show (getColumn data "invoice_date" >>= fun invCells =>
      invCells.mapM toDatetimeCell >>= fun inv =>
      getColumn data "due_date" >>= fun dueCells =>
      dueCells.mapM toDatetimeCell >>= fun due =>
      getColumn data "total" >>= fun totCells =>
      totCells.mapM toNumericCell >>= fun tot =>
      Except.ok ⟨zipBuiltRows data inv due tot⟩) =
      (Except.error "KeyError: invoice_date" : Except String Frame) from by rw [hg]; rfl]

/-- A record carrying only a vendor field. -/
def vendorOnlyRecord : Record := [("vendor", Json.str "X")]

/-- C9 witness: one record with none of the expected keys. -/
theorem c9_witness :
    ([vendorOnlyRecord] : List Record) ≠ []
    ∧ (∀ r ∈ ([vendorOnlyRecord] : List Record), "invoice_date" ∉ recordKeys r)
    ∧ (∀ r ∈ ([vendorOnlyRecord] : List Record), "due_date" ∉ recordKeys r)
    ∧ (∀ r ∈ ([vendorOnlyRecord] : List Record), "total" ∉ recordKeys r)
    ∧ create_pandas_dataframe [vendorOnlyRecord] = .error "KeyError: invoice_date" := by
  have hA : ([vendorOnlyRecord] : List Record) ≠ [] := by simp
  have hB : ∀ r ∈ ([vendorOnlyRecord] : List Record), "invoice_date" ∉ recordKeys r := by
    intro r hr
    simp only [List.mem_singleton] at hr
    subst hr
    simp [vendorOnlyRecord, recordKeys]
  have hC : ∀ r ∈ ([vendorOnlyRecord] : List Record), "due_date" ∉ recordKeys r := by
    intro r hr
    simp only [List.mem_singleton] at hr
    subst hr
    simp [vendorOnlyRecord, recordKeys]
  have hD : ∀ r ∈ ([vendorOnlyRecord] : List Record), "total" ∉ recordKeys r := by
    intro r hr
    simp only [List.mem_singleton] at hr
    subst hr
    simp [vendorOnlyRecord, recordKeys]
  exact ⟨hA, hB, hC, hD, c9_missing_column_raises [vendorOnlyRecord] hA hB hC hD⟩

/-- C3 counterexample: a model response that is a valid JSON object with
only one of the five fields parses successfully and is appended as-is: a
record missing the other four fields enters the output list and no
failure is recorded. -/
theorem c3_counterexample :
    parse_invoices_from_images
        [⟨"a.png", ImageSource.response "\x7b\"vendor\": \"Acme\"\x7d"⟩]
      = ([Json.obj [("vendor", Json.str "Acme")]], [])
    ∧ lookupCell (asRecord (Json.obj [("vendor", Json.str "Acme")])) "invoice_number" = none
    ∧ lookupCell (asRecord (Json.obj [("vendor", Json.str "Acme")])) "invoice_date" = none
    ∧ lookupCell (asRecord (Json.obj [("vendor", Json.str "Acme")])) "due_date" = none
    ∧ lookupCell (asRecord (Json.obj [("vendor", Json.str "Acme")])) "total" = none :=
  ⟨rfl, rfl, rfl, rfl, rfl⟩

/-- C3 (corrected): for every image the extractor either appends exactly
the parsed JSON value — with no validation that the five fields are
present or correctly typed — or records a failure carrying the filename
and the error cause; nothing else enters either list. -/
theorem c3_parse_or_recorded_failure (imgs : List ImageFile) :
    parse_invoices_from_images imgs
      = (imgs.filterMap (fun i => (processImage i).toOption),
         imgs.filterMap (fun i =>
           match processImage i with
           | .error e => some (i.name, e)
           | .ok _ => none)) := by
  induction imgs with
  | nil => rfl
  | cons i rest ih =>
    cases hp : processImage i with
    | ok v =>
      simp only [parse_invoices_from_images, hp, List.filterMap_cons, Except.toOption, ih]
    | error e =>
      simp only [parse_invoices_from_images, hp, List.filterMap_cons, Except.toOption, ih]

/-- C1 counterexample: the generated query open(path, write-mode) followed
by write(text) executes successfully — builtins are reachable — and
creates the file, instead of failing with an ExecutionFailure. -/
theorem c1_counterexample :
    execStmt (.openWrite "inv.txt" "stolen") sampleFrame 0 emptyWorld
      = .ok (sampleFrame, ⟨[("inv.txt", "stolen")], 0⟩, "")
    ∧ ([("inv.txt", "stolen")] : List (String × String)) ≠ emptyWorld.files :=
  ⟨rfl, by simp [emptyWorld]⟩

/-- C1 (corrected): the globals mapping passed to exec holds only df, pd
and today_date, and a bare name outside these and the builtins raises a
NameError returned as a failure; but CPython injects the builtins module
into that mapping, so file (and other builtin) operations are reachable
and succeed rather than failing. -/
theorem c1_exec_scope (n : String) (df : Frame) (today : Int) (w : World)
    (h : resolvable n = false) :
    execStmt (.refName n) df today w = .error "NameError"
    ∧ execGlobalNames = execExplicitGlobals ++ ["__builtins__"]
    ∧ resolvable "open" = true
    ∧ (∀ p t, execStmt (.openWrite p t) df today w
        = .ok (df, ⟨setFile w.files p t, w.connections⟩, "")) := by
  refine ⟨?_, rfl, rfl, fun p t => rfl⟩
  simp [execStmt, h]

/-- C1 witness: the name shutil resolves in no part of the scope. -/
theorem c1_witness :
    resolvable "shutil" = false
    ∧ (execStmt (.refName "shutil") sampleFrame 0 emptyWorld = .error "NameError"
      ∧ execGlobalNames = execExplicitGlobals ++ ["__builtins__"]
      ∧ resolvable "open" = true
      ∧ (∀ p t, execStmt (.openWrite p t) sampleFrame 0 emptyWorld
          = .ok (sampleFrame, ⟨setFile emptyWorld.files p t, emptyWorld.connections⟩, ""))) :=
  ⟨rfl, c1_exec_scope "shutil" sampleFrame 0 emptyWorld rfl⟩

/-- C2 counterexample: the mutating query df.drop(df.index, inplace=True)
executes successfully and leaves the shared table empty: the table after
execution differs from the table before. -/
theorem c2_counterexample :
    execStmt .dropAllRows sampleFrame 0 emptyWorld = .ok (⟨[]⟩, emptyWorld, "")
    ∧ Frame.mk [] ≠ sampleFrame :=
  ⟨rfl, by simp [sampleFrame, Frame.mk.injEq]⟩

/-- C2 (corrected): the executor does not prevent mutation — the frame is
shared by reference and mutating statements change it — but every query
that performs no table-mutating statement leaves the table unchanged. -/
theorem c2_read_only_queries_preserve (q : QueryStmt) (df df' : Frame)
    (today : Int) (w w' : World) (out : String)
    (hq : mutatesTable q = false)
    (h : execStmt q df today w = .ok (df', w', out)) : df' = df := by
  cases q with
  | assignTotal v => simp [mutatesTable] at hq
  | dropAllRows => simp [mutatesTable] at hq
  | printLenDf =>
    simp only [execStmt, Except.ok.injEq, Prod.mk.injEq] at h
    exact h.1.symm
  | printSumTotal =>
    simp only [execStmt, Except.ok.injEq, Prod.mk.injEq] at h
    exact h.1.symm
  | printCountDueWithin days =>
    simp only [execStmt, Except.ok.injEq, Prod.mk.injEq] at h
    exact h.1.symm
  | printVendorsOver amount =>
    simp only [execStmt, Except.ok.injEq, Prod.mk.injEq] at h
    exact h.1.symm
  | openWrite p t =>
    simp only [execStmt, Except.ok.injEq, Prod.mk.injEq] at h
    exact h.1.symm
  | openReadPrint p =>
    simp only [execStmt] at h
    split at h
    · simp only [Except.ok.injEq, Prod.mk.injEq] at h
      exact h.1.symm
    · exact absurd h (by simp)
  | osRemove p =>
    simp only [execStmt] at h
    split at h
    · simp only [Except.ok.injEq, Prod.mk.injEq] at h
      exact h.1.symm
    · exact absurd h (by simp)
  | socketConnect host =>
    simp only [execStmt, Except.ok.injEq, Prod.mk.injEq] at h
    exact h.1.symm
  | refName n =>
    simp only [execStmt] at h
    split at h
    · simp only [Except.ok.injEq, Prod.mk.injEq] at h
      exact h.1.symm
    · exact absurd h (by simp)

/-- C2 witness: a concrete read-only query preserves the sample frame. -/
theorem c2_witness :
    mutatesTable .printLenDf = false
    ∧ execStmt .printLenDf sampleFrame 0 emptyWorld = .ok (sampleFrame, emptyWorld, "2")
    ∧ sampleFrame = sampleFrame :=
  ⟨rfl, rfl,
   c2_read_only_queries_preserve .printLenDf sampleFrame sampleFrame 0 emptyWorld
     emptyWorld "2" rfl rfl⟩

/-- A full extractable model response for a valid invoice. -/
def goodResponse : String :=
  "\x7b\"vendor\": \"Acme\", \"invoice_number\": \"1\", \"invoice_date\": \"2024-01-15\", \"due_date\": \"2024-01-30\", \"total\": 100.00\x7d"

/-- A response whose invoice date is not a real calendar date (February
has no 30th day in 2024). -/
def badDateResponse : String :=
  "\x7b\"vendor\": \"B\", \"invoice_number\": \"2\", \"invoice_date\": \"2024-02-30\", \"due_date\": \"2024-03-01\", \"total\": 5\x7d"

/-- One good image and one whose extracted date is malformed. -/
def demoImages : List ImageFile :=
  [⟨"a.png", ImageSource.response goodResponse⟩,
   ⟨"b.png", ImageSource.response badDateResponse⟩]

/-- C5 counterexample: a bad date format on one image raises no error
during extraction (no failure is recorded), but then the table build —
run uncaught in the main script — raises, so this per-image failure
terminates the whole run instead of being isolated. -/
theorem c5_counterexample :
    (parse_invoices_from_images demoImages).2 = []
    ∧ buildPipeline demoImages = .error "could not parse date 2024-02-30" :=
  ⟨rfl, rfl⟩

/-- C5 (corrected): failures that raise while processing one image are
recorded and extraction continues with the rest of the batch, and a
failed question turn is reported and the loop continues with the next
prompt; the correction is that bad date or number formats raise nothing
at extraction time and instead abort the run at the table build. -/
theorem c5_isolation (img : ImageFile) (rest : List ImageFile) (e : String)
    (he : processImage img = .error e)
    (df : Frame) (today : Int) (w : World) (t : TurnEnv) (ts : List TurnEnv)
    (o : TurnOutcome) (df' : Frame) (w' : World) (k : Nat)
    (ht : runTurn df today w t = (o, df', w', k)) (ho : o ≠ .exited) :
    parse_invoices_from_images (img :: rest)
      = ((parse_invoices_from_images rest).1,
         (img.name, e) :: (parse_invoices_from_images rest).2)
    ∧ runLoop df today w (t :: ts)
      = (o :: (runLoop df' today w' ts).1, k + (runLoop df' today w' ts).2) := by
  constructor
  · simp only [parse_invoices_from_images, he]
  · cases o with
    | exited => exact absurd rfl ho
    | answered a => simp only [runLoop, ht]
    | failed e2 => simp only [runLoop, ht]

/-- A turn whose synthesis call raises a service error. -/
def failTurn : TurnEnv :=
  ⟨"how many invoices", Except.error "ServiceUnavailable", Except.ok "fine"⟩

/-- C5 witness: a concrete unreadable image and a concrete failed turn. -/
theorem c5_witness :
    processImage ⟨"x.png", ImageSource.openFailure "cannot identify image file"⟩
      = .error "cannot identify image file"
    ∧ runTurn sampleFrame 0 emptyWorld failTurn
      = (.failed "ServiceUnavailable", sampleFrame, emptyWorld, 1)
    ∧ (TurnOutcome.failed "ServiceUnavailable" ≠ .exited)
    ∧ (parse_invoices_from_images
          [⟨"x.png", ImageSource.openFailure "cannot identify image file"⟩]
        = ((parse_invoices_from_images []).1,
           ("x.png", "cannot identify image file") :: (parse_invoices_from_images []).2)
      ∧ runLoop sampleFrame 0 emptyWorld [failTurn]
        = (.failed "ServiceUnavailable" :: (runLoop sampleFrame 0 emptyWorld []).1,
           1 + (runLoop sampleFrame 0 emptyWorld []).2)) := by
  refine ⟨rfl, rfl, by simp, ?_⟩
  exact c5_isolation ⟨"x.png", ImageSource.openFailure "cannot identify image file"⟩ []
    "cannot identify image file" rfl sampleFrame 0 emptyWorld failTurn []
    (.failed "ServiceUnavailable") sampleFrame emptyWorld 1 rfl (by simp)

/-- A record whose invoice date string fails date coercion. -/
def badDateRecord : Record :=
  [("vendor", Json.str "B"), ("invoice_number", Json.str "2"),
   ("invoice_date", Json.str "not-a-date"), ("due_date", Json.str "2024-03-01"),
   ("total", Json.num ⟨5, 0⟩)]

/-- C4 counterexample: a record whose date fails coercion is not excluded
from the built table — its presence makes the whole build raise. -/
theorem c4_counterexample :
    create_pandas_dataframe [badDateRecord] = .error "could not parse date not-a-date" :=
  rfl

theorem except_ok_bind_inv {α β : Type} {m : Except String α}
    {f : α → Except String β} {b : β} (h : (m >>= f) = .ok b) :
    ∃ a, m = .ok a ∧ f a = .ok b := by
  cases m with
  | error e => rw [except_bind_error] at h; exact absurd h (by simp)
  | ok a => exact ⟨a, rfl, by rw [except_bind_ok] at h; exact h⟩

theorem getColumn_ok_inv (data : List Record) (k : String)
    (cells : List (Option Json)) (h : getColumn data k = .ok cells) :
    cells = data.map (fun r => lookupCell r k) := by
  rw [getColumn] at h
  split at h
  · injection h with h
    exact h.symm
  · exact absurd h (by simp)

/-- C4 (corrected): when the build returns a table, no record has been
excluded (one row per input record) and every row's date cells are NaT or
valid calendar dates (totals are numeric or NaN by construction); the
correction is that a record whose fields fail coercion is not excluded —
it makes the build raise, as the counterexample shows. -/
theorem c4_build_ok_rows_valid (data : List Record) (tbl : Frame)
    (h : create_pandas_dataframe data = .ok tbl) :
    tbl.rows.length = data.length
    ∧ ∀ r ∈ tbl.rows,
        (r.invoice_date = none
          ∨ ∃ y m d, validDate y m d = true ∧ r.invoice_date = some (dateOrdinal y m d))
        ∧ (r.due_date = none
          ∨ ∃ y m d, validDate y m d = true ∧ r.due_date = some (dateOrdinal y m d)) := by
  by_cases hem : data.isEmpty = true
  · rw [create_pandas_dataframe, if_pos hem] at h
    rw [List.isEmpty_iff] at hem
    subst hem
    injection h with h
    subst h
    exact ⟨rfl, by intro r hr; simp at hr⟩
  · rw [create_pandas_dataframe, if_neg hem] at h
    obtain ⟨invCells, hg1, h⟩ := except_ok_bind_inv h
    obtain ⟨inv, hm1, h⟩ := except_ok_bind_inv h
    obtain ⟨dueCells, hg2, h⟩ := except_ok_bind_inv h
    obtain ⟨due, hm2, h⟩ := except_ok_bind_inv h
    obtain ⟨totCells, hg3, h⟩ := except_ok_bind_inv h
    obtain ⟨tot, hm3, h⟩ := except_ok_bind_inv h
    injection h with h
    subst h
    have hc1 := getColumn_ok_inv _ _ _ hg1
    have hc2 := getColumn_ok_inv _ _ _ hg2
    have hc3 := getColumn_ok_inv _ _ _ hg3
    obtain ⟨hl1, hmem1⟩ := mapM_except_ok toDatetimeCell invCells inv hm1
    obtain ⟨hl2, hmem2⟩ := mapM_except_ok toDatetimeCell dueCells due hm2
    obtain ⟨hl3, hmem3⟩ := mapM_except_ok toNumericCell totCells tot hm3
    constructor
    · exact zipBuiltRows_length data inv due tot
        (by rw [hl1, hc1, List.length_map])
        (by rw [hl2, hc2, List.length_map])
        (by rw [hl3, hc3, List.length_map])
    · intro r hr
      obtain ⟨hin, hdu, _⟩ := zipBuiltRows_mem r data inv due tot hr
      obtain ⟨cell1, -, hok1⟩ := hmem1 _ hin
      obtain ⟨cell2, -, hok2⟩ := hmem2 _ hdu
      exact ⟨toDatetimeCell_ok cell1 _ hok1, toDatetimeCell_ok cell2 _ hok2⟩

/-- A record all of whose fields coerce. -/
def goodRecord : Record :=
  [("vendor", Json.str "Acme"), ("invoice_number", Json.str "1"),
   ("invoice_date", Json.str "2024-01-15"), ("due_date", Json.str "2024-01-30"),
   ("total", Json.num ⟨10000, 2⟩)]

/-- The frame built from the good record. -/
def goodFrame : Frame :=
  ⟨[⟨goodRecord, some (dateOrdinal 2024 1 15), some (dateOrdinal 2024 1 30),
     some ⟨10000, 2⟩⟩]⟩

/-- C4 witness: a concrete successful build. -/
theorem c4_witness :
    create_pandas_dataframe [goodRecord] = .ok goodFrame
    ∧ (goodFrame.rows.length = [goodRecord].length
      ∧ ∀ r ∈ goodFrame.rows,
          (r.invoice_date = none
            ∨ ∃ y m d, validDate y m d = true ∧ r.invoice_date = some (dateOrdinal y m d))
          ∧ (r.due_date = none
            ∨ ∃ y m d, validDate y m d = true ∧ r.due_date = some (dateOrdinal y m d))) :=
  ⟨rfl, c4_build_ok_rows_valid [goodRecord] goodFrame rfl⟩
